import Mathlib

/-!
A verification development for a small forward-mode automatic
differentiation library built on dual numbers, together with the
Newton root finder that consumes it.  The definitions below are a
shallow embedding of the library: `Scalar` models the numeric payloads
(exact rationals for the finite floating-point values that arise, plus
the positive-infinity sentinel produced by the guarded division),
`Num` is the dual-number class, `val` and `d` are the value/derivative
extraction protocol, and `newton` is the solver with its `Result`
record.  Exceptional outcomes of the interpreted runtime (the
ValueError of `val`, the ZeroDivisionError of plain float division,
and the UnboundLocalError of reading a never-assigned local) are made
explicit with `Except`.
-/

namespace Autodiff

/-- Numeric payload: an exact rational (modelling the finite
floating-point values the library manipulates) or the positive
infinity sentinel `np.inf` produced by the guarded division.  NaN and
negative infinity never arise in the properties proved here and are
not distinguished from `inf`. -/
inductive Scalar where
  | fin (q : ℚ)
  | inf
deriving DecidableEq, BEq

/-- Addition of payloads; finite values add exactly, an infinite
operand propagates. -/
def Scalar.add : Scalar → Scalar → Scalar
  | .fin a, .fin b => .fin (a + b)
  | _, _ => .inf

/-- Subtraction of payloads. -/
def Scalar.sub : Scalar → Scalar → Scalar
  | .fin a, .fin b => .fin (a - b)
  | _, _ => .inf

/-- Multiplication of payloads. -/
def Scalar.mul : Scalar → Scalar → Scalar
  | .fin a, .fin b => .fin (a * b)
  | _, _ => .inf

/-- Division of payloads; a finite value divided by infinity is 0. -/
def Scalar.div : Scalar → Scalar → Scalar
  | .fin a, .fin b => .fin (a / b)
  | .fin _, .inf => .fin 0
  | .inf, _ => .inf

/-- Unary minus on payloads. -/
def Scalar.neg : Scalar → Scalar
  | .fin q => .fin (-q)
  | .inf => .inf

/-- Absolute value, as used by the tolerance test of the solver. -/
def Scalar.abs : Scalar → Scalar
  | .fin q => .fin (if q < 0 then -q else q)
  | .inf => .inf

/-- Integer power `x ** n` of a payload. -/
def Scalar.zpow : Scalar → ℤ → Scalar
  | .fin q, z => .fin (q ^ z)
  | .inf, z => if z = 0 then .fin 1 else if z < 0 then .fin 0 else .inf

/-- Strict comparison `x < y`, as used by the tolerance test. -/
def Scalar.blt : Scalar → Scalar → Bool
  | .fin a, .fin b => decide (a < b)
  | .fin _, .inf => true
  | .inf, _ => false

/-- The dual-number class `Num` of core.py: a value `x` and a
derivative `dx`. -/
structure Num where
  x : Scalar
  dx : Scalar
deriving DecidableEq

/-- The operand kinds for which the arithmetic methods of `Num` are
invoked: the other operand of an operator is either another dual
number or a plain scalar constant. -/
inductive Operand where
  | num (a : Num)
  | scalar (s : Scalar)
deriving DecidableEq

/-- `val(other)` as evaluated inside the arithmetic methods: the value
part of a dual number, the identity on a plain scalar. -/
def Operand.val : Operand → Scalar
  | .num a => a.x
  | .scalar s => s

/-- `d(other)` as evaluated inside the arithmetic methods: the stored
derivative of a dual number; a plain scalar is a constant with
derivative 0. -/
def Operand.d : Operand → Scalar
  | .num a => a.dx
  | .scalar _ => .fin 0

/-- `Num.__add__`: value `x + y`, derivative `dx + dy`. -/
def Num.add (self : Num) (other : Operand) : Num :=
  Num.mk (self.x.add other.val) (self.dx.add other.d)

/-- `Num.__radd__`, defined in the source as the very same function as
`Num.__add__`. -/
def Num.radd : Num → Operand → Num := Num.add

/-- `Num.__sub__`: value `x - y`, derivative `dx - dy`. -/
def Num.sub (self : Num) (other : Operand) : Num :=
  Num.mk (self.x.sub other.val) (self.dx.sub other.d)

/-- `Num.__mul__`: value `x * y`, derivative `dx*y + x*dy` (product
rule). -/
def Num.mul (self : Num) (other : Operand) : Num :=
  Num.mk (self.x.mul other.val) ((self.dx.mul other.val).add (self.x.mul other.d))

/-- `Num.__rmul__`, the same function as `Num.__mul__`. -/
def Num.rmul : Num → Operand → Num := Num.mul

/-- `Num.__neg__`: `-self` is implemented as `-1 * self`, which
dispatches to the reflected multiplication. -/
def Num.neg (self : Num) : Num := self.rmul (.scalar (.fin (-1)))

/-- `Num.__rsub__`: `-self + other`. -/
def Num.rsub (self : Num) (other : Operand) : Num := self.neg.add other

/-- `Num.__truediv__`: the quotient rule `(x/y, (dx*y - x*dy)/y**2)`,
with the zero-divisor guard that returns the `(inf, inf)` sentinel
instead of raising. -/
def Num.truediv (self : Num) (other : Operand) : Num :=
  if other.val = .fin 0 then Num.mk .inf .inf
  else
    Num.mk (self.x.div other.val)
      (((self.dx.mul other.val).sub (self.x.mul other.d)).div (other.val.zpow 2))

/-- `Num.__pow__` with an integer-constant exponent (the source
computes a float power; on the integer exponents relevant here the two
agree).  The source also extracts `dy = d(other)` and `dx = d(self)`,
but the new derivative is `y * x**(y-1)` exactly as written in the
source: neither `dx` nor `dy` enters the result. -/
def Num.pow (self : Num) (n : ℤ) : Num :=
  Num.mk (self.x.zpow n) ((Scalar.fin (n : ℚ)).mul (self.x.zpow (n - 1)))

/-- `Var(x)`: shorthand for `Num(x, 1.0)`, the seed variable. -/
def Var (x : Scalar) : Num := Num.mk x (.fin 1)

/-- `Num.__float__`: explicit lossy conversion to the value part. -/
def Num.toFloat (self : Num) : Scalar := self.x

/-- The runtime exceptions relevant to this library: the ValueError
raised by `val` on an unsupported type (named UnsupportedType in the
design document), the ZeroDivisionError of plain float division, and
the UnboundLocalError raised when a local variable is read before it
was ever assigned. -/
inductive PyErr where
  | unsupportedType
  | zeroDivision
  | unboundLocal
deriving DecidableEq

/-- The runtime values `val` may receive: dual numbers, floats, ints,
numpy arrays, callables, and representatives of the remaining
(unsupported) types. -/
inductive PyVal where
  | num (a : Num)
  | float (s : Scalar)
  | int (z : ℤ)
  | ndarray (xs : List Scalar)
  | func (f : Num → Num)
  | str (s : String)
  | pynone

/-- `val(var)` from core.py: the value part of a dual number, the
identity on floats, ints and arrays, and a ValueError (with message
"Cannot convert ... to value!") on anything else. -/
def val : PyVal → Except PyErr PyVal
  | .num a => .ok (.float a.x)
  | .float s => .ok (.float s)
  | .int z => .ok (.int z)
  | .ndarray xs => .ok (.ndarray xs)
  | .func _ => .error .unsupportedType
  | .str _ => .error .unsupportedType
  | .pynone => .error .unsupportedType

/-- The argument kinds of `d`: a dual number, a callable, a plain
scalar, or any other object (for which `d` also returns 0). -/
inductive DVar where
  | num (a : Num)
  | func (f : Num → Num)
  | scalar (s : Scalar)
  | other

/-- The possible results of `d`: a scalar derivative or a derivative
function. -/
inductive DRes where
  | scalar (s : Scalar)
  | func (g : Scalar → Scalar)

/-- The closure `fprime` that `d` builds for a callable argument:
evaluate the callable at the seed `Num(x, 1.0)` and return the
derivative part of the result. -/
def fprimeOf (f : Num → Num) : Scalar → Scalar :=
  fun x => (f (Num.mk x (.fin 1))).dx

/-- `d(var, n)` from core.py: for `n > 1` it recurses with `n - 1` on
the same argument; otherwise it returns the stored derivative of a
dual number, the derivative function of a callable, and 0 for
everything else. -/
def d (var : DVar) (n : ℕ) : DRes :=
  if h : n > 1 then d var (n - 1)
  else
    match var with
    | .num a => .scalar a.dx
    | .func f => .func (fprimeOf f)
    | .scalar _ => .scalar (.fin 0)
    | .other => .scalar (.fin 0)
termination_by n
decreasing_by omega

/-- A Python callable handed to `newton`: a single object that is
applied both to plain scalars (inside the counted evaluation of `f`)
and to dual numbers (inside the derivative function `d` builds). -/
structure PyFun where
  onScalar : Scalar → Scalar
  onNum : Num → Num

/-- The `Result` record of tools.py: a dict in the source, modelled
field-wise over the five keys `newton` stores, with `none` marking an
absent key.  Only the `success` entry matters for truthiness. -/
structure Result where
  message : Option String
  success : Option Bool
  nit : Option ℕ
  nfev : Option ℕ
  x : Option Scalar
deriving DecidableEq

/-- `Result.__bool__`: the stored `success` value when that key is
present, and `False` otherwise. -/
def Result.toBool (r : Result) : Bool :=
  match r.success with
  | some b => b
  | none => false

/-- The `while count < maxiter` loop of `newton`, with the state
`(count, x0)` and the evaluation counter `nfev` of the `prepare`
wrapper threaded explicitly; the first numeric argument is
`maxiter - count`, the number of loop entries still permitted.  One
entry evaluates `f(x0)` (incrementing the counter), breaks with
success when `abs(f_x0) < atol`, and otherwise steps
`x0 <- x0 - f_x0 / fprime(x0)`, which raises ZeroDivisionError, as
plain float division does, when `fprime(x0)` is zero.  The normal
outcome is `(success, count, nfev, x0)`. -/
def newtonRun (fS fp : Scalar → Scalar) (atol : Scalar) :
    ℕ → ℕ → ℕ → Scalar → Except PyErr (Bool × ℕ × ℕ × Scalar)
  | 0, count, nfev, x0 => .ok (false, count, nfev, x0)
  | fuel + 1, count, nfev, x0 =>
    if ((fS x0).abs.blt atol) = true then
      .ok (true, count, nfev + 1, x0)
    else if fp x0 = .fin 0 then
      .error .zeroDivision
    else
      newtonRun fS fp atol fuel (count + 1) (nfev + 1)
        (x0.add (((fS x0).neg).div (fp x0)))

/-- `newton(fun, x0, atol, maxiter)` from tools.py.  It obtains
`_fprime = d(fun)` once up front, wraps `fun` in the `prepare`
counter, runs the loop, and assembles the `Result`, reporting `nfev`
as twice the raw count.  When the loop body never ran (`maxiter = 0`)
the local `nfev` was never assigned, so reading it in the final
`2*nfev` raises UnboundLocalError. -/
def newton (f : PyFun) (x0 atol : Scalar) (maxiter : ℕ) : Except PyErr Result :=
  match newtonRun f.onScalar (fprimeOf f.onNum) atol maxiter 0 0 x0 with
  | .error e => .error e
  | .ok (success, count, nfev, x) =>
    if nfev = 0 then .error .unboundLocal
    else
      .ok (Result.mk
        (some (if success then "converged." else "max iterations reached."))
        (some success) (some count) (some (2 * nfev)) (some x))

/-- Decidable equality of exception-or-value outcomes, used to
evaluate the solver on concrete inputs. -/
instance {ε α : Type} [DecidableEq ε] [DecidableEq α] :
    DecidableEq (Except ε α) := fun a b =>
  match a, b with
  | .ok x, .ok y => decidable_of_iff (x = y) (by simp)
  | .error x, .error y => decidable_of_iff (x = y) (by simp)
  | .ok _, .error _ => isFalse (by simp)
  | .error _, .ok _ => isFalse (by simp)

/-- The example function `f(x) = 3 + x - x**3` of the doctests: the
Python expression dispatches to `__radd__` (an int plus a dual),
`__sub__` and `__pow__`. -/
def fex (a : Num) : Num :=
  (a.radd (.scalar (.fin 3))).sub (.num (a.pow 3))

/-- A callable whose plain evaluation is the constant 1 and whose dual
evaluation is `Num(1, 1)`: Newton iteration on it never converges for
tolerances at most 1, and its derivative function is the nonzero
constant 1. -/
def constOnePF : PyFun :=
  PyFun.mk (fun _ => .fin 1) (fun _ => Num.mk (.fin 1) (.fin 1))

/-- A callable whose plain evaluation is the infinity sentinel and
whose dual evaluation is `Num(inf, 1)`: the tolerance test never
passes and the derivative function is the nonzero constant 1, so the
solver exhausts its iterations. -/
def infPF : PyFun :=
  PyFun.mk (fun _ => .inf) (fun _ => Num.mk .inf (.fin 1))

/-- A callable whose plain evaluation is 0, so the solver converges at
the very first tolerance check. -/
def zeroPF : PyFun :=
  PyFun.mk (fun _ => .fin 0) (fun _ => Num.mk (.fin 0) (.fin 1))

/-- Embedding of an operator operand into the runtime values of
`val`. -/
def Operand.toPyVal : Operand → PyVal
  | .num a => .num a
  | .scalar s => .float s

/-- Embedding of an operator operand into the argument kinds of
`d`. -/
def Operand.toDVar : Operand → DVar
  | .num a => .num a
  | .scalar s => .scalar s

theorem Scalar.add_commutes (s t : Scalar) : s.add t = t.add s := by
  cases s <;> cases t <;> simp [Scalar.add, add_comm]

theorem Scalar.mul_commutes (s t : Scalar) : s.mul t = t.mul s := by
  cases s <;> cases t <;> simp [Scalar.mul, mul_comm]

/-- The operand accessor used inside the arithmetic methods agrees
with the global `val` of the extraction protocol. -/
theorem operand_val_agrees (o : Operand) :
    val o.toPyVal = .ok (.float o.val) := by
  cases o <;> rfl

/-- The operand accessor used inside the arithmetic methods agrees
with the global `d` of the extraction protocol. -/
theorem operand_d_agrees (o : Operand) :
    d o.toDVar 1 = .scalar o.d := by
  cases o <;> (unfold d; rfl)

/-- Claim C1: the power rule drops the inner derivative.  At the dual
number a = (7, 2) with exponent y = 2 the source computes the
derivative `y * x**(y-1) = 14`, whereas the claimed value
`y * x**(y-1) * dx` is 28: the factor `dx` is never applied (the
extracted `dy` is likewise unused). -/
theorem pow_drops_inner_derivative :
    (Num.pow (Num.mk (.fin 7) (.fin 2)) 2).dx = .fin 14 ∧
    (Scalar.fin 2).mul (((Scalar.fin 7).zpow (2 - 1)).mul (.fin 2)) = .fin 28 := by
  constructor
  · simp [Num.pow, Scalar.zpow, Scalar.mul]
    norm_num
  · simp [Scalar.zpow, Scalar.mul]
    norm_num

/-- Claim C2: `d` applied to a callable returns the function carrying
x to the derivative part of f(Num(x, 1)); for f(x) = 3 + x - x**3
that function yields -146.0 at 7. -/
theorem derivative_of_callable :
    (∀ f : Num → Num, d (.func f) 1 = .func (fprimeOf f)) ∧
    (∀ (f : Num → Num) (x : Scalar), fprimeOf f x = (f (Num.mk x (.fin 1))).dx) ∧
    fprimeOf fex (.fin 7) = .fin (-146) := by
  refine ⟨fun f => ?_, fun f x => rfl, ?_⟩
  · unfold d
    simp
  · simp [fex, fprimeOf, Num.radd, Num.add, Num.sub, Num.pow, Operand.val,
      Operand.d, Scalar.add, Scalar.sub, Scalar.mul, Scalar.zpow]
    norm_num

/-- Claim C3: dividing a dual number by an operand whose value is 0
yields the `(inf, inf)` sentinel (the operation is total, so no error
is possible), and otherwise division follows the quotient rule
`(x/y, (dx*y - x*dy)/y**2)`. -/
theorem truediv_rule (a : Num) (b : Operand) :
    (b.val = .fin 0 → a.truediv b = Num.mk .inf .inf) ∧
    (b.val ≠ .fin 0 →
      a.truediv b = Num.mk (a.x.div b.val)
        (((a.dx.mul b.val).sub (a.x.mul b.d)).div (b.val.zpow 2))) := by
  constructor
  · intro h
    simp [Num.truediv, h]
  · intro h
    simp [Num.truediv, h]

/-- Claim C3 witness: 1 with derivative 2 divided by the dual (0, 3)
gives the infinity sentinel, and divided by the plain scalar 2 gives
the quotient-rule result. -/
theorem truediv_rule_check :
    Num.truediv (Num.mk (.fin 1) (.fin 2)) (.num (Num.mk (.fin 0) (.fin 3))) =
      Num.mk .inf .inf ∧
    Num.truediv (Num.mk (.fin 6) (.fin 1)) (.scalar (.fin 2)) =
      Num.mk ((Scalar.fin 6).div ((Operand.scalar (.fin 2)).val))
        ((((Scalar.fin 1).mul ((Operand.scalar (.fin 2)).val)).sub
            ((Scalar.fin 6).mul ((Operand.scalar (.fin 2)).d))).div
          (((Operand.scalar (.fin 2)).val).zpow 2)) :=
  ⟨(truediv_rule _ _).1 rfl, (truediv_rule _ _).2 (by decide)⟩

/-- Claim C4: with `maxiter = 0` the loop body never runs, the local
`nfev` is never assigned, and reading it in the final `2*nfev` raises
UnboundLocalError: this invocation of `newton` does not return a
`Result`. -/
theorem newton_maxiter_zero (f : PyFun) (x0 atol : Scalar) :
    newton f x0 atol 0 = .error .unboundLocal := rfl

/-- Claim C5: the sum, difference and product rules of the dual-number
arithmetic, with a plain-scalar operand contributing derivative 0;
addition and multiplication are commutative and the reflected forms
are the same functions as the direct ones. -/
theorem dual_linear_rules :
    (∀ (a : Num) (o : Operand), a.add o = Num.mk (a.x.add o.val) (a.dx.add o.d)) ∧
    (∀ (a : Num) (o : Operand), a.sub o = Num.mk (a.x.sub o.val) (a.dx.sub o.d)) ∧
    (∀ (a : Num) (o : Operand),
      a.mul o = Num.mk (a.x.mul o.val) ((a.dx.mul o.val).add (a.x.mul o.d))) ∧
    (∀ a b : Num, a.add (.num b) = b.add (.num a)) ∧
    (∀ a b : Num, a.mul (.num b) = b.mul (.num a)) ∧
    Num.radd = Num.add ∧ Num.rmul = Num.mul := by
  refine ⟨fun a o => rfl, fun a o => rfl, fun a o => rfl, ?_, ?_, rfl, rfl⟩
  · intro a b
    simp only [Num.add, Operand.val, Operand.d]
    rw [Scalar.add_commutes a.x b.x, Scalar.add_commutes a.dx b.dx]
  · intro a b
    simp only [Num.mul, Operand.val, Operand.d]
    rw [Scalar.mul_commutes a.x b.x, Scalar.mul_commutes a.dx b.x,
      Scalar.mul_commutes a.x b.dx, Scalar.add_commutes]

/-- Claim C7: requesting an n-th derivative for any n at least 1
collapses to the first derivative: d(var, n) = d(var, 1), because the
recursion for n > 1 passes the same argument unchanged. -/
theorem derivative_order_collapses (v : DVar) (n : ℕ) (h : 1 ≤ n) :
    d v n = d v 1 := by
  induction n with
  | zero => exact absurd h (by decide)
  | succ k ih =>
    match k, ih with
    | 0, _ => rfl
    | k + 1, ih =>
      have hstep : d v (k + 2) = d v (k + 1) := by
        conv_lhs => unfold d
        rw [dif_pos (show k + 2 > 1 by omega)]
        norm_num
      exact hstep.trans (ih (by omega))

/-- Claim C7 witness at n = 3. -/
theorem derivative_order_check :
    d (.num (Num.mk (.fin 2) (.fin 5))) 3 = d (.num (Num.mk (.fin 2) (.fin 5))) 1 :=
  derivative_order_collapses _ 3 (by decide)

/-- Claim C9: the truthiness of a `Result` is true exactly when the
`success` key is present with value true; in every other case,
including an absent key, the record is falsy. -/
theorem result_truthiness (r : Result) :
    r.toBool = true ↔ r.success = some true := by
  obtain ⟨m, s, ni, nf, xv⟩ := r
  cases s with
  | none => simp [Result.toBool]
  | some b => cases b <;> simp [Result.toBool]

/-- Claim C9 witness: a record holding only success = true is truthy,
and the record newton builds on failure is falsy. -/
theorem result_truthiness_check :
    (Result.mk none (some true) none none none).toBool = true ∧
    ¬ (Result.mk (some "max iterations reached.") (some false) (some 15)
        (some 30) none).toBool = true :=
  ⟨(result_truthiness _).mpr rfl, fun h => by
    have := (result_truthiness _).mp h
    exact Option.noConfusion this fun hb => Bool.noConfusion hb⟩

/-- Bookkeeping of the solver loop: if the loop ends by exhaustion
(success flag false) it performed exactly `fuel` more update steps and
counted `fuel` more evaluations; if it ends by convergence the final
tolerance check costs one more counted evaluation than the number of
update steps taken, and at least one loop entry was left unused. -/
theorem newtonRun_accounting (fS fp : Scalar → Scalar) (atol : Scalar) :
    ∀ (fuel count nfev : ℕ) (x0 : Scalar) (b : Bool) (c n : ℕ) (x : Scalar),
      newtonRun fS fp atol fuel count nfev x0 = .ok (b, c, n, x) →
      (b = false → c = count + fuel ∧ n = nfev + fuel) ∧
      (b = true → count ≤ c ∧ c < count + fuel ∧ n = nfev + (c - count) + 1) := by
  intro fuel
  induction fuel with
  | zero =>
    intro count nfev x0 b c n x h
    simp only [newtonRun] at h
    obtain ⟨hb, hc, hn, hx⟩ : false = b ∧ count = c ∧ nfev = n ∧ x0 = x := by
      simpa using h
    subst hb
    refine ⟨fun _ => by omega, fun hb1 => absurd hb1 (by simp)⟩
  | succ k ih =>
    intro count nfev x0 b c n x h
    simp only [newtonRun] at h
    by_cases h1 : ((fS x0).abs.blt atol) = true
    · rw [if_pos h1] at h
      obtain ⟨hb, hc, hn, hx⟩ : true = b ∧ count = c ∧ nfev + 1 = n ∧ x0 = x := by
        simpa using h
      subst hb
      refine ⟨fun hb0 => absurd hb0 (by simp), fun _ => by omega⟩
    · rw [if_neg h1] at h
      by_cases h2 : fp x0 = .fin 0
      · rw [if_pos h2] at h
        exact absurd h (by simp)
      · rw [if_neg h2] at h
        have hrec := ih (count + 1) (nfev + 1)
          (x0.add (((fS x0).neg).div (fp x0))) b c n x h
        refine ⟨fun hb => ?_, fun hb => ?_⟩
        · have h3 := hrec.1 hb
          omega
        · have h3 := hrec.2 hb
          omega

/-- The only exception the solver loop itself can raise is the
ZeroDivisionError of the update step. -/
theorem newtonRun_err (fS fp : Scalar → Scalar) (atol : Scalar) :
    ∀ (fuel count nfev : ℕ) (x0 : Scalar) (e : PyErr),
      newtonRun fS fp atol fuel count nfev x0 = .error e → e = .zeroDivision := by
  intro fuel
  induction fuel with
  | zero =>
    intro count nfev x0 e h
    simp only [newtonRun] at h
    exact absurd h (by simp)
  | succ k ih =>
    intro count nfev x0 e h
    simp only [newtonRun] at h
    by_cases h1 : ((fS x0).abs.blt atol) = true
    · rw [if_pos h1] at h
      exact absurd h (by simp)
    · rw [if_neg h1] at h
      by_cases h2 : fp x0 = .fin 0
      · rw [if_pos h2] at h
        have h3 : PyErr.zeroDivision = e := by simpa using h
        exact h3.symm
      · rw [if_neg h2] at h
        exact ih _ _ _ _ h

/-- Reduction of `newton` when its loop raises. -/
theorem newton_run_error (f : PyFun) (x0 atol : Scalar) (maxiter : ℕ) (e : PyErr)
    (hrun : newtonRun f.onScalar (fprimeOf f.onNum) atol maxiter 0 0 x0 = .error e) :
    newton f x0 atol maxiter = .error e := by
  unfold newton
  rw [hrun]

/-- Reduction of `newton` when its loop returns normally. -/
theorem newton_run_ok (f : PyFun) (x0 atol : Scalar) (maxiter : ℕ)
    (b : Bool) (c n : ℕ) (x : Scalar)
    (hrun : newtonRun f.onScalar (fprimeOf f.onNum) atol maxiter 0 0 x0 =
      .ok (b, c, n, x)) :
    newton f x0 atol maxiter =
      if n = 0 then .error .unboundLocal
      else .ok (Result.mk
        (some (if b then "converged." else "max iterations reached."))
        (some b) (some c) (some (2 * n)) (some x)) := by
  unfold newton
  rw [hrun]

/-- The only exceptions `newton` can raise are the ZeroDivisionError
of the update step and the UnboundLocalError of the unassigned
evaluation counter. -/
theorem newton_err (f : PyFun) (x0 atol : Scalar) (maxiter : ℕ) (e : PyErr)
    (h : newton f x0 atol maxiter = .error e) :
    e = .zeroDivision ∨ e = .unboundLocal := by
  cases hrun : newtonRun f.onScalar (fprimeOf f.onNum) atol maxiter 0 0 x0 with
  | error e2 =>
    rw [newton_run_error f x0 atol maxiter e2 hrun] at h
    have h2 : e2 = e := by simpa using h
    left
    rw [← h2]
    exact newtonRun_err _ _ _ _ _ _ _ _ hrun
  | ok out =>
    obtain ⟨b, c, n, xf⟩ := out
    rw [newton_run_ok f x0 atol maxiter b c n xf hrun] at h
    by_cases hn : n = 0
    · rw [if_pos hn] at h
      have h2 : PyErr.unboundLocal = e := by simpa using h
      right
      exact h2.symm
    · rw [if_neg hn] at h
      exact absurd h (by simp)

/-- Claim C6: whenever `newton` returns a `Result` marked as a failure
(which happens exactly when the loop exhausted its `maxiter` entries
without the tolerance test succeeding), the record carries the message
"max iterations reached.", `nit = maxiter`, and `nfev = 2 * maxiter`,
twice the raw number of counted evaluations of `f`. -/
theorem newton_exhaust (f : PyFun) (x0 atol : Scalar) (maxiter : ℕ) (r : Result)
    (hok : newton f x0 atol maxiter = .ok r) (hfail : r.success = some false) :
    r.message = some "max iterations reached." ∧ r.nit = some maxiter ∧
      r.nfev = some (2 * maxiter) := by
  cases hrun : newtonRun f.onScalar (fprimeOf f.onNum) atol maxiter 0 0 x0 with
  | error e =>
    rw [newton_run_error f x0 atol maxiter e hrun] at hok
    exact absurd hok (by simp)
  | ok out =>
    obtain ⟨b, c, n, xf⟩ := out
    rw [newton_run_ok f x0 atol maxiter b c n xf hrun] at hok
    by_cases hn : n = 0
    · rw [if_pos hn] at hok
      exact absurd hok (by simp)
    · rw [if_neg hn] at hok
      injection hok with hr
      subst hr
      have hb : b = false := by simpa using hfail
      subst hb
      have hacc :=
        (newtonRun_accounting f.onScalar (fprimeOf f.onNum) atol
          maxiter 0 0 x0 false c n xf hrun).1 rfl
      refine ⟨by simp, ?_, ?_⟩
      · simp only [Option.some.injEq]
        omega
      · simp only [Option.some.injEq]
        omega

/-- Claim C6 witness: a callable evaluating to infinity never meets
the tolerance; with x0 = 0, atol = 1 and maxiter = 3 the solver
reports the iteration-limit failure with nit = 3 and nfev = 6. -/
theorem newton_exhaust_check :
    (Result.mk (some "max iterations reached.") (some false) (some 3) (some 6)
        (some .inf)).message = some "max iterations reached." ∧
      (Result.mk (some "max iterations reached.") (some false) (some 3) (some 6)
        (some .inf)).nit = some 3 ∧
      (Result.mk (some "max iterations reached.") (some false) (some 3) (some 6)
        (some .inf)).nfev = some 6 :=
  newton_exhaust infPF (.fin 0) (.fin 1) 3 _ (by decide) rfl

/-- Claim C10: whenever `newton` returns a `Result` marked successful,
the iteration count is strictly below `maxiter`, the reported `nfev`
is twice the raw count `nit + 1` (the final convergence check costs
one counted evaluation beyond the update steps), and the message is
"converged.". -/
theorem newton_converged (f : PyFun) (x0 atol : Scalar) (maxiter : ℕ) (r : Result)
    (hok : newton f x0 atol maxiter = .ok r) (hsucc : r.success = some true) :
    ∃ k : ℕ, r.nit = some k ∧ k < maxiter ∧ r.nfev = some (2 * (k + 1)) ∧
      r.message = some "converged." := by
  cases hrun : newtonRun f.onScalar (fprimeOf f.onNum) atol maxiter 0 0 x0 with
  | error e =>
    rw [newton_run_error f x0 atol maxiter e hrun] at hok
    exact absurd hok (by simp)
  | ok out =>
    obtain ⟨b, c, n, xf⟩ := out
    rw [newton_run_ok f x0 atol maxiter b c n xf hrun] at hok
    by_cases hn : n = 0
    · rw [if_pos hn] at hok
      exact absurd hok (by simp)
    · rw [if_neg hn] at hok
      injection hok with hr
      subst hr
      have hb : b = true := by simpa using hsucc
      subst hb
      have hacc :=
        (newtonRun_accounting f.onScalar (fprimeOf f.onNum) atol
          maxiter 0 0 x0 true c n xf hrun).2 rfl
      refine ⟨c, rfl, by omega, ?_, by simp⟩
      simp only [Option.some.injEq]
      omega

/-- Claim C10 witness: the zero function converges at the very first
tolerance check, so nit = 0 and nfev = 2 with any positive maxiter. -/
theorem newton_converged_check :
    ∃ k : ℕ,
      (Result.mk (some "converged.") (some true) (some 0) (some 2)
          (some (.fin 5))).nit = some k ∧
        k < 4 ∧
        (Result.mk (some "converged.") (some true) (some 0) (some 2)
          (some (.fin 5))).nfev = some (2 * (k + 1)) ∧
        (Result.mk (some "converged.") (some true) (some 0) (some 2)
          (some (.fin 5))).message = some "converged." :=
  newton_converged zeroPF (.fin 5) (.fin 1) 4 _ (by rfl) rfl

/-- Claim C8: `val` extracts the value part of a dual number, is the
identity on plain scalars and arrays (no coercion), and raises the
unsupported-type ValueError on every other kind of input; that error
arises nowhere else — in particular the solver can only raise the
ZeroDivisionError of the update step or the UnboundLocalError of its
unassigned counter. -/
theorem val_spec :
    (∀ a : Num, val (.num a) = .ok (.float a.x)) ∧
    (∀ s : Scalar, val (.float s) = .ok (.float s)) ∧
    (∀ z : ℤ, val (.int z) = .ok (.int z)) ∧
    (∀ xs : List Scalar, val (.ndarray xs) = .ok (.ndarray xs)) ∧
    (∀ f : Num → Num, val (.func f) = .error .unsupportedType) ∧
    (∀ s : String, val (.str s) = .error .unsupportedType) ∧
    (val .pynone = .error .unsupportedType) ∧
    (∀ (f : PyFun) (x0 atol : Scalar) (maxiter : ℕ) (e : PyErr),
      newton f x0 atol maxiter = .error e →
      e = .zeroDivision ∨ e = .unboundLocal) :=
  ⟨fun _ => rfl, fun _ => rfl, fun _ => rfl, fun _ => rfl, fun _ => rfl,
    fun _ => rfl, rfl, fun f x0 atol maxiter e h => newton_err f x0 atol maxiter e h⟩

/-- Claim C8 witness: a string input errors, and the one error a
concrete raising newton invocation produces is among the two solver
exceptions. -/
theorem val_spec_check :
    val (.str "hello") = .error .unsupportedType ∧
    (PyErr.unboundLocal = PyErr.zeroDivision ∨
      PyErr.unboundLocal = PyErr.unboundLocal) :=
  ⟨val_spec.2.2.2.2.2.1 "hello",
    val_spec.2.2.2.2.2.2.2 constOnePF (.fin 0) (.fin 1) 0 .unboundLocal rfl⟩

end Autodiff
